import Mathlib

/-!
Verification of the text-to-sql-powerhouse repository.

The development shallowly embeds the JavaScript sources
`src/services/sqlGenerator.js` (SQL generation pipeline, SQL validator,
query-log sync job) and `src/scheduler/syncSchema.js` (schema sync job).
External collaborators (the embedding service, the Pinecone vector store,
the language model, the Postgres pool) are modelled as oracles supplied in
an environment structure; every external call the code issues is recorded
in a trace so that call-order and call-count properties can be stated.
JavaScript string builtins used by the code (`toLowerCase`, `includes`,
`trim`, `match`, `replace` with the four literal regexes of
`sanitizeQueries`) are modelled over `List Char`, restricted to ASCII
text, which covers every string the claims mention.
-/

/-! ## Models of the JavaScript string builtins -/

/-- JS whitespace class `\s`, restricted to the ASCII range. -/
def isJsWhitespace (c : Char) : Bool :=
  c = ' ' || c = '\t' || c = '\n' || c = '\x0d' || c = '\x0b' || c = '\x0c'

/-- JS line terminators (what `.` in a regex does not match), ASCII range. -/
def isLineTerm (c : Char) : Bool :=
  c = '\n' || c = '\x0d'

/-- JS `String.prototype.toLowerCase`, ASCII range. -/
def toLowerCase (s : String) : String :=
  String.mk (s.data.map Char.toLower)

/-- Substring search over char lists (JS `String.prototype.includes`). -/
def includesList (needle : List Char) : List Char → Bool
  | [] => needle.isEmpty
  | c :: rest => needle.isPrefixOf (c :: rest) || includesList needle rest

/-- JS `String.prototype.includes`. -/
def includes (s sub : String) : Bool :=
  includesList sub.data s.data

/-- JS `String.prototype.trim`, ASCII whitespace. -/
def jsTrim (s : String) : String :=
  String.mk (((s.data.dropWhile isJsWhitespace).reverse.dropWhile isJsWhitespace).reverse)

/-- JS truthiness of a string: the empty string is falsy. -/
def jsTruthy (s : String) : Bool :=
  !s.data.isEmpty

/-- The suffix of `hay` after the first occurrence of `needle`, if any:
the capture of a JS `text.match(/needle([\s\S]*)/)`. -/
def afterFirst (needle : List Char) : List Char → Option (List Char)
  | [] => if needle.isEmpty then some [] else none
  | c :: rest =>
    if needle.isPrefixOf (c :: rest) then some ((c :: rest).drop needle.length)
    else afterFirst needle rest

/-- The capture group of `text.match(/marker([\s\S]*)/)`: all text after the
first occurrence of the literal `marker`, or `none` when the marker is absent. -/
def matchCapture (marker text : String) : Option String :=
  (afterFirst marker.data text.data).map String.mk

/-- JS `String.prototype.split` with a one-character separator. -/
def splitOnCharList (sep : Char) : List Char → List Char → List String
  | acc, [] => [String.mk acc.reverse]
  | acc, c :: rest =>
    if c = sep then String.mk acc.reverse :: splitOnCharList sep [] rest
    else splitOnCharList sep (c :: acc) rest

/-- JS `s.split(sep)` for a single-character separator string. -/
def jsSplit (s : String) (sep : Char) : List String :=
  splitOnCharList sep [] s.data

/-! ## External calls and the validator (src/services/sqlGenerator.js) -/

/-- The two Pinecone collections the repository connects to:
`pinecone.index(process.env.PINECONE_INDEX_NAME)` (table summaries) and
`pinecone.index(process.env.PINECONE_QUERY_INDEX_NAME)` (query intents). -/
inductive IndexId where
  | tableIndex
  | queryIntentsIndex
deriving DecidableEq, Repr

/-- One external call issued by the generation pipeline. LLM prompts are not
materialized (no claim depends on prompt text), only the fact of the call. -/
inductive ExtCall where
  | embedQuery (text : String)
  | indexQuery (index : IndexId) (topK : Nat)
  | llmInvoke
  | explainQuery (sql : String)
deriving DecidableEq, Repr

/-- The `{isValid, error}` object returned by `validateSqlSyntax`. -/
structure ValidationResult where
  isValid : Bool
  error : Option String
deriving DecidableEq, Repr

/-- The forbidden keyword list of `validateSqlSyntax` (sqlGenerator.js:23-33). -/
def forbiddenKeywords : List String :=
  ["insert", "update", "delete", "drop", "create", "alter", "truncate", "grant", "revoke"]

/-- `validateSqlSyntax` (sqlGenerator.js:21-57). `dryRun` is the database
oracle for `client.query('EXPLAIN ' + sqlQuery)`: `none` models success,
`some msg` models a raised error with message `msg`. The second component
is the trace of database calls the function issues. -/
def validateSqlSyntax (dryRun : String → Option String) (sqlQuery : String) :
    ValidationResult × List ExtCall :=
  let normalizedSql := toLowerCase sqlQuery
  if forbiddenKeywords.any (fun keyword => includes normalizedSql (" " ++ keyword ++ " ")) then
    (⟨false, some "Query contains a forbidden write-operation keyword."⟩, [])
  else
    match dryRun sqlQuery with
    | none => (⟨true, none⟩, [ExtCall.explainQuery sqlQuery])
    | some msg => (⟨false, some msg⟩, [ExtCall.explainQuery sqlQuery])

/-! ## Response parsing and the generation pipeline -/

/-- Metadata stored with each table index entry (syncSchema.js:99-105). -/
structure TableMeta where
  name : String
  summary : String
  schema : String
  tier : String
  domain : String
deriving DecidableEq, Repr

/-- Structured outcome of parsing the final LLM response
(sqlGenerator.js:150-200). -/
inductive ParseOutcome where
  | query (sql : String)
  | explanation (text : String)
  | malformed
deriving DecidableEq, Repr

/-- The response-parsing logic of `generateSqlFromQuestion`
(sqlGenerator.js:150-155, 183-185, 191-200): regex captures for the two
markers, then the JS `if (queryMatch && queryMatch[1]) ... else if
(explanationMatch && explanationMatch[1]) ... else ...` cascade, with the
captured payload trimmed in the branch that uses it. -/
def parseResponse (finalResponse : String) : ParseOutcome :=
  let queryMatch := matchCapture "<@query@>" finalResponse
  let explanationMatch := matchCapture "<@explanation@>" finalResponse
  if (queryMatch.map jsTruthy).getD false then
    ParseOutcome.query (jsTrim (queryMatch.getD ""))
  else if (explanationMatch.map jsTruthy).getD false then
    ParseOutcome.explanation (jsTrim (explanationMatch.getD ""))
  else
    ParseOutcome.malformed

/-- Environment of one `generateSqlFromQuestion` invocation: the responses
of every external collaborator the function consults, in source order. -/
structure GenEnv where
  /-- metadata of the matches returned by `pineconeIndex.query` -/
  tableMatches : List TableMeta
  /-- the re-rank LLM response -/
  rerankResponse : String
  /-- the generation LLM response -/
  finalResponse : String
  /-- the EXPLAIN oracle: `none` = success, `some msg` = database error -/
  dryRun : String → Option String

/-- `generateSqlFromQuestion` (sqlGenerator.js:60-201): embed the question,
query the table index with `topK: 5`, re-rank via the LLM, generate via the
LLM, parse the tagged response, and validate a found query before returning
it. Returns the function's outcome (`ok` = returned query, `error` = thrown
message) paired with the trace of external calls it issued. -/
def generateSqlFromQuestion (env : GenEnv) (question : String) :
    Except String String × List ExtCall :=
  let relevantTables := env.tableMatches
  let topTableNames := (jsSplit env.rerankResponse ',').map jsTrim
  let finalTableSchemas :=
    (relevantTables.filter (fun t => topTableNames.contains t.name)).map
      (fun t => "Table Name: " ++ t.name ++ "\nColumns: " ++ t.schema)
  let callsPrefix :=
    [ExtCall.embedQuery question, ExtCall.indexQuery IndexId.tableIndex 5,
     ExtCall.llmInvoke, ExtCall.llmInvoke]
  match parseResponse env.finalResponse with
  | ParseOutcome.query sqlQuery =>
    let validated := validateSqlSyntax env.dryRun sqlQuery
    if !validated.1.isValid then
      (Except.error ("Generated SQL is invalid: " ++ (validated.1.error.getD "")),
       callsPrefix ++ validated.2)
    else
      (Except.ok sqlQuery, callsPrefix ++ validated.2)
  | ParseOutcome.explanation explanation =>
    (Except.error ("LLM explanation: " ++ explanation), callsPrefix)
  | ParseOutcome.malformed =>
    (Except.error "Invalid response format from LLM. No <@query@> or <@explanation@> tag found.",
     callsPrefix)

/-! ## The query-log sanitizer (sqlGenerator.js:245-254)

`sanitizeQueries` applies four global regex replaces in order:
`/WHERE\s+\S+\s*=\s*'.*?'/g` and `/AND\s+\S+\s*=\s*'.*?'/g` (quoted
literals) then `/WHERE\s+\S+\s*=\s*\d+/g` and `/AND\s+\S+\s*=\s*\d+/g`
(numeric literals). The four patterns share the shape
KEYWORD `\s+` `\S+` `\s*` `=` `\s*` TAIL; the matcher below implements the
regex engine's behaviour on that shape: leftmost match, greedy `\s+`/`\S+`
(with backtracking of `\S+` over a maximal non-space run), lazy `'.*?'`
whose dot does not cross a line terminator, greedy `\d+`. -/

/-- The tail of the two pattern families: a quoted literal or a digit run. -/
inductive TailPat where
  | quoted
  | numeric
deriving DecidableEq, Repr

/-- Match `\s* = \s* TAIL` at the head of `l`; return the rest after the
match. Both `\s*` are deterministic: each is followed by a non-space
mandatory character, so maximal munch never needs to backtrack. -/
def matchEqTail (tail : TailPat) (l : List Char) : Option (List Char) :=
  match (l.dropWhile isJsWhitespace) with
  | '=' :: l1 =>
    let l2 := l1.dropWhile isJsWhitespace
    match tail with
    | TailPat.quoted =>
      match l2 with
      | '\'' :: l3 =>
        let content := l3.takeWhile (fun c => !(c = '\''))
        match l3.dropWhile (fun c => !(c = '\'')) with
        | '\'' :: l4 => if content.any isLineTerm then none else some l4
        | _ => none
      | _ => none
    | TailPat.numeric =>
      let ds := l2.takeWhile Char.isDigit
      if ds.isEmpty then none else some (l2.dropWhile Char.isDigit)
  | _ => none

/-- Backtracking of the greedy `\S+` over the maximal non-space run `run`
(the regex tries the longest prefix of the run first, then gives back one
character at a time; `\S+` needs at least one character). `rest` is the
text after the run. -/
def trySplits (tail : TailPat) (run rest : List Char) : Nat → Option (List Char)
  | 0 => none
  | j + 1 =>
    match matchEqTail tail (run.drop (j + 1) ++ rest) with
    | some r => some r
    | none => trySplits tail run rest j

/-- Try to match `KEYWORD \s+ \S+ \s* = \s* TAIL` at the head of `l`;
return the rest of the text after the whole match. -/
def matchPatAt (kw : List Char) (tail : TailPat) (l : List Char) : Option (List Char) :=
  if kw.isPrefixOf l then
    match l.drop kw.length with
    | [] => none
    | c :: l1 =>
      if isJsWhitespace c then
        let l2 := (c :: l1).dropWhile isJsWhitespace
        let run := l2.takeWhile (fun d => !isJsWhitespace d)
        let rest := l2.dropWhile (fun d => !isJsWhitespace d)
        if run.isEmpty then none else trySplits tail run rest run.length
      else none
  else none

/-- One global regex replace (JS `String.prototype.replace` with a `/g`
regex): scan left to right, replace each leftmost match and continue after
it. `fuel` bounds the recursion; `fuel = l.length` always suffices because
every step consumes at least one character. -/
def replacePat (kw repl : List Char) (tail : TailPat) : Nat → List Char → List Char
  | 0, l => l
  | _ + 1, [] => []
  | fuel + 1, c :: rest =>
    match matchPatAt kw tail (c :: rest) with
    | some r => repl ++ replacePat kw repl tail fuel r
    | none => c :: replacePat kw repl tail fuel rest

/-- JS `s.replace(/KW\s+\S+\s*=\s*TAIL/g, repl)`. -/
def jsRegexReplace (kw : String) (tail : TailPat) (repl : String) (s : String) : String :=
  String.mk (replacePat kw.data repl.data tail s.data.length s.data)

/-- The transform `sanitizeQueries` applies to one query: the four global
replaces in source order (quoted `WHERE`, quoted `AND`, numeric `WHERE`,
numeric `AND`). -/
def sanitizeOne (query : String) : String :=
  jsRegexReplace "AND" TailPat.numeric "AND column = 123"
    (jsRegexReplace "WHERE" TailPat.numeric "WHERE column = 123"
      (jsRegexReplace "AND" TailPat.quoted "AND column = 'value'"
        (jsRegexReplace "WHERE" TailPat.quoted "WHERE column = 'value'" query)))

/-- `sanitizeQueries` (sqlGenerator.js:245-254). -/
def sanitizeQueries (queries : List String) : List String :=
  queries.map sanitizeOne


/-! ## Schema Sync Job (src/scheduler/syncSchema.js) -/

/-- An introspected table: name and the joined column string
(syncSchema.js:50-53). -/
structure TableSchema where
  name : String
  schema : String
deriving DecidableEq, Repr

/-- An introspected table together with its LLM summary
(syncSchema.js:72-76). -/
structure SummarizedTable where
  name : String
  schema : String
  summary : String
deriving DecidableEq, Repr

/-- One entry of the curated metadata file `table-standard.json`, keyed by
table name: the fields the job reads are `tier` and `domain`, each
optional. -/
structure CuratedMeta where
  tier : Option String
  domain : Option String
deriving DecidableEq, Repr

/-- A summarized table after the JS spread merge
`{...table, ...(tableMetadata[table.name] || {})}` (syncSchema.js:141-144):
a curated entry's present fields override, and a table absent from the
curated map keeps no tier/domain. -/
structure EnrichedTable where
  name : String
  schema : String
  summary : String
  tier : Option String
  domain : Option String
deriving DecidableEq, Repr

/-- The spread merge of one table with the curated map
(syncSchema.js:141-144). -/
def enrich (tableMetadata : String → Option CuratedMeta) (table : SummarizedTable) :
    EnrichedTable :=
  match tableMetadata table.name with
  | none => ⟨table.name, table.schema, table.summary, none, none⟩
  | some m => ⟨table.name, table.schema, table.summary, m.tier, m.domain⟩

/-- JS `v || d` for an optional string `v`: the empty string is falsy, so
it falls back to the default just as absence does. -/
def jsOrString (v : Option String) (d : String) : String :=
  match v with
  | some s => if s = "" then d else s
  | none => d

/-- The metadata object upserted for a table (syncSchema.js:99-105):
`tier: table.tier || 'IRON'`, `domain: table.domain || 'IRON'`. -/
structure RecordMeta where
  name : String
  summary : String
  schema : String
  tier : String
  domain : String
deriving DecidableEq, Repr

/-- One record sent to `pineconeIndex.upsert` (syncSchema.js:95-107). -/
structure PineconeRecord where
  id : String
  values : List Int
  metadata : RecordMeta
deriving DecidableEq, Repr

/-- The record built for one enriched table inside the upsert loop
(syncSchema.js:95-107), with `vector` the embedding of its summary. -/
def pineconeRecordFor (table : EnrichedTable) (vector : List Int) : PineconeRecord :=
  ⟨table.name, vector,
    ⟨table.name, table.summary, table.schema,
     jsOrString table.tier "IRON", jsOrString table.domain "IRON"⟩⟩

/-- External collaborators of one `runSchemaSync` run. Every fallible stage
is an `Except`/`Option` oracle: `introspect` models `getDatabaseSchema`'s
database reads, `summarizeLlm` the per-table `llm.invoke`, `tableMetadata`
the `readFile` + `JSON.parse` of the curated file, `embedQuery` the
embedding call inside the upsert loop, and `upsert` the Pinecone upsert
(`none` = success, `some msg` = rejected with `msg`). -/
structure SchemaSyncEnv where
  introspect : Except String (List TableSchema)
  summarizeLlm : TableSchema → Except String String
  tableMetadata : Except String (String → Option CuratedMeta)
  embedQuery : String → Except String (List Int)
  upsert : PineconeRecord → Option String

/-- `getDatabaseSchema` (syncSchema.js:31-65): introspection, propagating
database errors. -/
def getDatabaseSchema (env : SchemaSyncEnv) : Except String (List TableSchema) :=
  env.introspect

/-- `generateSummaries` (syncSchema.js:67-85): one LLM call per table via
`Promise.all` — any rejection rejects the whole stage; each summary is
trimmed. -/
def generateSummaries (env : SchemaSyncEnv) (tables : List TableSchema) :
    Except String (List SummarizedTable) :=
  tables.mapM (fun table =>
    (env.summarizeLlm table).map (fun summary => ⟨table.name, table.schema, jsTrim summary⟩))

/-- The body of the `for` loop of `upsertToPinecone` for one table: embed
the summary, then upsert; either step may throw. -/
def upsertStep (env : SchemaSyncEnv) (table : EnrichedTable) : Except String PineconeRecord :=
  match env.embedQuery table.summary with
  | Except.error e => Except.error e
  | Except.ok vector =>
    let record := pineconeRecordFor table vector
    match env.upsert record with
    | some e => Except.error e
    | none => Except.ok record

/-- `upsertToPinecone` (syncSchema.js:87-121): upsert the tables strictly
one at a time; the first failure stops the loop. Returns the records
upserted so far and the error that stopped the loop, if any. -/
def upsertToPinecone (env : SchemaSyncEnv) : List EnrichedTable → List PineconeRecord × Option String
  | [] => ([], none)
  | table :: rest =>
    match upsertStep env table with
    | Except.error e => ([], some e)
    | Except.ok record =>
      let (records, err) := upsertToPinecone env rest
      (record :: records, err)

/-- The `try` block of `runSchemaSync` (syncSchema.js:129-157): the staged
pipeline, with the records already upserted threaded alongside the
outcome so that a late failure still reports what was written. -/
def runSchemaSyncTry (env : SchemaSyncEnv) : List PineconeRecord × Except String Unit :=
  match getDatabaseSchema env with
  | Except.error e => ([], Except.error e)
  | Except.ok rawSchema =>
    match generateSummaries env rawSchema with
    | Except.error e => ([], Except.error e)
    | Except.ok summarizedSchema =>
      match env.tableMetadata with
      | Except.error e => ([], Except.error e)
      | Except.ok tableMetadata =>
        let enrichedSchema := summarizedSchema.map (enrich tableMetadata)
        let (records, err) := upsertToPinecone env enrichedSchema
        (records, match err with
          | some e => Except.error e
          | none => Except.ok ())

/-- What one job run leaves behind: the records upserted and the error the
outer `catch` logged, if the try block threw. -/
structure SyncRun where
  upserted : List PineconeRecord
  loggedError : Option String
deriving DecidableEq, Repr

/-- `runSchemaSync` (syncSchema.js:124-165): the try block wrapped in the
outer `try/catch`. The `Except` of the result type is what the scheduler
observes: an `Except.error` here would model a rejection escaping the job. -/
def runSchemaSync (env : SchemaSyncEnv) : Except String SyncRun :=
  match runSchemaSyncTry env with
  | (records, Except.ok _) => Except.ok ⟨records, none⟩
  | (records, Except.error e) => Except.ok ⟨records, some e⟩

/-! ## Query Log Sync Job (sqlGenerator.js:227-339, QueryLogSync service) -/

/-- A summarized query intent (sqlGenerator.js:280-281). -/
structure QueryIntent where
  summary : String
  sanitizedQuery : String
deriving DecidableEq, Repr

/-- Metadata of one query-intent record (sqlGenerator.js:312-315). -/
structure IntentMeta where
  summary : String
  query : String
deriving DecidableEq, Repr

/-- One record sent to `queryIntentsIndex.upsert` (sqlGenerator.js:308-317);
`id` is the md5 hex digest of the sanitized query. -/
structure IntentRecord where
  id : String
  values : List Int
  metadata : IntentMeta
deriving DecidableEq, Repr

/-- External collaborators of one `runQueryLogSync` run: `fetch` models
`fetchRecentQueries` (pg_stat_statements read), `summarizeLlm` the
per-query `llm.invoke`, `md5Hex` the `crypto` hash, `embedQuery` the
embedding call and `upsert` the Pinecone upsert. -/
structure QueryLogSyncEnv where
  fetch : Except String (List String)
  summarizeLlm : String → Except String String
  md5Hex : String → String
  embedQuery : String → Except String (List Int)
  upsert : IntentRecord → Option String

/-- `fetchRecentQueries` (sqlGenerator.js:228-244). -/
def fetchRecentQueries (env : QueryLogSyncEnv) : Except String (List String) :=
  env.fetch

/-- `summarizeQueries` (sqlGenerator.js:262-286): one LLM call per
sanitized query via `Promise.all`; each summary is trimmed. -/
def summarizeQueries (env : QueryLogSyncEnv) (sanitizedQueries : List String) :
    Except String (List QueryIntent) :=
  sanitizedQueries.mapM (fun query =>
    (env.summarizeLlm query).map (fun summary => ⟨jsTrim summary, query⟩))

/-- The loop body of `embedAndStoreQueries` for one intent: hash, embed,
upsert (sqlGenerator.js:297-317). -/
def storeStep (env : QueryLogSyncEnv) (intent : QueryIntent) : Except String IntentRecord :=
  match env.embedQuery intent.summary with
  | Except.error e => Except.error e
  | Except.ok vector =>
    let record : IntentRecord :=
      ⟨env.md5Hex intent.sanitizedQuery, vector, ⟨intent.summary, intent.sanitizedQuery⟩⟩
    match env.upsert record with
    | some e => Except.error e
    | none => Except.ok record

/-- `embedAndStoreQueries` (sqlGenerator.js:292-320): sequential upserts,
first failure stops the loop. -/
def embedAndStoreQueries (env : QueryLogSyncEnv) :
    List QueryIntent → List IntentRecord × Option String
  | [] => ([], none)
  | intent :: rest =>
    match storeStep env intent with
    | Except.error e => ([], some e)
    | Except.ok record =>
      let (records, err) := embedAndStoreQueries env rest
      (record :: records, err)

/-- The `try` block of `runQueryLogSync` (sqlGenerator.js:325-332). -/
def runQueryLogSyncTry (env : QueryLogSyncEnv) : List IntentRecord × Except String Unit :=
  match fetchRecentQueries env with
  | Except.error e => ([], Except.error e)
  | Except.ok rawQueries =>
    let sanitizedQueries := sanitizeQueries rawQueries
    match summarizeQueries env sanitizedQueries with
    | Except.error e => ([], Except.error e)
    | Except.ok summarizedIntents =>
      let (records, err) := embedAndStoreQueries env summarizedIntents
      (records, match err with
        | some e => Except.error e
        | none => Except.ok ())

/-- What one query-log job run leaves behind. -/
structure QuerySyncRun where
  upserted : List IntentRecord
  loggedError : Option String
deriving DecidableEq, Repr

/-- `runQueryLogSync` (sqlGenerator.js:323-339): the try block wrapped in
the outer `try/catch`; an `Except.error` of the result would model a
rejection escaping the job. -/
def runQueryLogSync (env : QueryLogSyncEnv) : Except String QuerySyncRun :=
  match runQueryLogSyncTry env with
  | (records, Except.ok _) => Except.ok ⟨records, none⟩
  | (records, Except.error e) => Except.ok ⟨records, some e⟩

/-- The error the outer `catch` of a sync job logs, given the try block's
outcome. -/
def caughtError : Except String Unit → Option String
  | Except.ok _ => none
  | Except.error e => some e

/-! ## Helper lemmas -/

/-- A list that stands somewhere inside another is found by `includesList`. -/
theorem includesList_append (needle s t : List Char) :
    includesList needle (s ++ (needle ++ t)) = true := by
  induction s with
  | nil =>
    cases needle with
    | nil => cases t <;> simp [includesList]
    | cons c cs =>
      simp only [List.nil_append, includesList, Bool.or_eq_true]
      exact Or.inl (List.isPrefixOf_iff_prefix.mpr (List.prefix_append _ _))
  | cons c s ih =>
    simp [includesList, ih]

/-- When the keyword gate's condition is true, `validateSqlSyntax` rejects
with the forbidden-keyword message and issues no database call. -/
theorem validateSqlSyntax_reject (dryRun : String → Option String) (sqlQuery : String)
    (h : forbiddenKeywords.any
      (fun keyword => includes (toLowerCase sqlQuery) (" " ++ keyword ++ " ")) = true) :
    validateSqlSyntax dryRun sqlQuery
      = (⟨false, some "Query contains a forbidden write-operation keyword."⟩, []) := by
  simp [validateSqlSyntax, h]

/-- When the keyword gate's condition is false, `validateSqlSyntax` issues
the dry-run database call. -/
theorem validateSqlSyntax_dryRuns (dryRun : String → Option String) (sqlQuery : String)
    (h : forbiddenKeywords.any
      (fun keyword => includes (toLowerCase sqlQuery) (" " ++ keyword ++ " ")) = false) :
    (validateSqlSyntax dryRun sqlQuery).2 = [ExtCall.explainQuery sqlQuery] := by
  simp only [validateSqlSyntax, h]
  cases dryRun sqlQuery <;> rfl

/-- The trace of `validateSqlSyntax` is empty (keyword rejection) or the
one dry-run call. -/
theorem validateSqlSyntax_trace (dryRun : String → Option String) (sqlQuery : String) :
    (validateSqlSyntax dryRun sqlQuery).2 = []
    ∨ (validateSqlSyntax dryRun sqlQuery).2 = [ExtCall.explainQuery sqlQuery] := by
  by_cases h : forbiddenKeywords.any
      (fun keyword => includes (toLowerCase sqlQuery) (" " ++ keyword ++ " ")) = true
  · exact Or.inl (by simp [validateSqlSyntax_reject dryRun sqlQuery h])
  · exact Or.inr (validateSqlSyntax_dryRuns dryRun sqlQuery (Bool.eq_false_iff.mpr h))

/-! ## Claim theorems -/

/-- C2: a candidate query containing one of the nine forbidden keywords as a
space-delimited token, in any letter case, is rejected by
`validateSqlSyntax` with the forbidden-keyword error message, and no
dry-run (EXPLAIN) database call is made. The token is `w`, a case variant
of the list entry `kw`, surrounded by literal spaces inside the query. -/
theorem c2_keyword_rejection (dryRun : String → Option String) (a w b kw : String)
    (hkw : kw ∈ forbiddenKeywords) (hw : toLowerCase w = kw) :
    validateSqlSyntax dryRun (a ++ " " ++ w ++ " " ++ b)
      = (⟨false, some "Query contains a forbidden write-operation keyword."⟩, []) := by
  apply validateSqlSyntax_reject
  apply List.any_eq_true.mpr
  refine ⟨kw, hkw, ?_⟩
  have hmap : w.data.map Char.toLower = kw.data := by
    have h := congrArg String.data hw
    simpa [toLowerCase] using h
  have hsp : (" " : String).data = [' '] := rfl
  simp only [includes, toLowerCase, String.data_append, List.map_append, hmap, hsp]
  have hone : ([' '] : List Char).map Char.toLower = [' '] := rfl
  simp only [hone]
  have h2 := includesList_append ([' '] ++ (kw.data ++ [' ']))
    (a.data.map Char.toLower) (b.data.map Char.toLower)
  simpa [List.append_assoc] using h2

/-- C2 witness: the concrete query `SELECT * FROM t DROP TABLE x` (keyword
`DROP` in upper case, surrounded by spaces) is rejected without a dry-run. -/
theorem c2_keyword_rejection_witness :
    validateSqlSyntax (fun _ => none) ("SELECT * FROM t" ++ " " ++ "DROP" ++ " " ++ "TABLE x")
      = (⟨false, some "Query contains a forbidden write-operation keyword."⟩, []) :=
  c2_keyword_rejection (fun _ => none) "SELECT * FROM t" "DROP" "TABLE x" "drop"
    (by decide) (by decide)

/-- C7: candidate queries containing a forbidden keyword that the keyword
gate does not reject. For each of the three shapes the claim names — the
keyword at the start of the string (`drop table users`), at the end
(`select * from t where action = grant`), and without surrounding
whitespace, followed by punctuation (`select update(1) from t`) — the
lower-cased query contains the keyword, yet `validateSqlSyntax` issues the
dry-run call: the keyword gate passed the query through. -/
theorem c7_keyword_gate_bypass (dryRun : String → Option String) :
    ((validateSqlSyntax dryRun "drop table users").2
        = [ExtCall.explainQuery "drop table users"]
      ∧ includes (toLowerCase "drop table users") "drop" = true)
    ∧ ((validateSqlSyntax dryRun "select * from t where action = grant").2
        = [ExtCall.explainQuery "select * from t where action = grant"]
      ∧ includes (toLowerCase "select * from t where action = grant") "grant" = true)
    ∧ ((validateSqlSyntax dryRun "select update(1) from t").2
        = [ExtCall.explainQuery "select update(1) from t"]
      ∧ includes (toLowerCase "select update(1) from t") "update" = true) :=
  ⟨⟨validateSqlSyntax_dryRuns dryRun _ (by decide), by decide⟩,
   ⟨validateSqlSyntax_dryRuns dryRun _ (by decide), by decide⟩,
   ⟨validateSqlSyntax_dryRuns dryRun _ (by decide), by decide⟩⟩

/-- C10: the keyword gate rejects by substring alone. The read-only query
`SELECT * FROM messages WHERE body = 'please update me'` — whose only
forbidden-keyword occurrence is the word `update` inside a quoted string
literal — is rejected by `validateSqlSyntax` with the forbidden-keyword
error, and the dry-run gate is never reached (no database call in the
trace), whatever the database oracle would have answered. -/
theorem c10_string_literal_rejected (dryRun : String → Option String) :
    validateSqlSyntax dryRun "SELECT * FROM messages WHERE body = 'please update me'"
      = (⟨false, some "Query contains a forbidden write-operation keyword."⟩, [])
    ∧ "SELECT".data.isPrefixOf
        ("SELECT * FROM messages WHERE body = 'please update me'").data = true :=
  ⟨validateSqlSyntax_reject dryRun _ (by decide), by decide⟩

/-- C1: `generateSqlFromQuestion` returns a query string only if
`validateSqlSyntax` returned `isValid = true` on that very string (first
conjunct), and whenever the validator yields `isValid = false` — from
either gate, hence with either gate's error message — the function throws
`Generated SQL is invalid: <validator error>` and the candidate query is
never returned (second conjunct). -/
theorem c1_validation_gate (env : GenEnv) (question sqlQuery : String) :
    ((generateSqlFromQuestion env question).1 = Except.ok sqlQuery →
      parseResponse env.finalResponse = ParseOutcome.query sqlQuery
      ∧ (validateSqlSyntax env.dryRun sqlQuery).1.isValid = true)
    ∧ (∀ e, parseResponse env.finalResponse = ParseOutcome.query sqlQuery →
        (validateSqlSyntax env.dryRun sqlQuery).1 = ⟨false, some e⟩ →
        (generateSqlFromQuestion env question).1
          = Except.error ("Generated SQL is invalid: " ++ e)) := by
  constructor
  · intro h
    cases hp : parseResponse env.finalResponse with
    | query s =>
      simp only [generateSqlFromQuestion, hp] at h
      cases hv : (validateSqlSyntax env.dryRun s).1.isValid with
      | false => simp [hv] at h
      | true =>
        simp [hv] at h
        subst h
        exact ⟨rfl, hv⟩
    | explanation s => simp [generateSqlFromQuestion, hp] at h
    | malformed => simp [generateSqlFromQuestion, hp] at h
  · intro e hp hv
    have hval : (validateSqlSyntax env.dryRun sqlQuery).1.isValid = false := by rw [hv]
    simp [generateSqlFromQuestion, hp, hval, hv]

/-- C1 witness: a found query that passes validation is returned, and the
same pipeline with a failing dry-run throws the validator's message. -/
theorem c1_validation_gate_witness :
    (parseResponse "<@query@>SELECT 1" = ParseOutcome.query "SELECT 1"
      ∧ (validateSqlSyntax (fun _ => none) "SELECT 1").1.isValid = true)
    ∧ (generateSqlFromQuestion
          ⟨[], "", "<@query@>SELECT 1", fun _ => some "relation t missing"⟩ "list rows").1
        = Except.error ("Generated SQL is invalid: " ++ "relation t missing") :=
  ⟨(c1_validation_gate ⟨[], "", "<@query@>SELECT 1", fun _ => none⟩ "list rows" "SELECT 1").1
      (by rfl),
   (c1_validation_gate ⟨[], "", "<@query@>SELECT 1", fun _ => some "relation t missing"⟩
      "list rows" "SELECT 1").2 "relation t missing" (by decide) (by rfl)⟩

/-- C3 counterexample: on the raw text `<@query@>` the marker `<@query@>`
occurs (the regex capture is the empty string), yet the outcome is
`MALFORMED`, not the `QUERY_FOUND` outcome with an empty query that the
claim demands for empty trailing text: JS truthiness discards the empty
capture, so the parser falls through both branches. -/
theorem c3_counterexample :
    matchCapture "<@query@>" "<@query@>" = some ""
    ∧ parseResponse "<@query@>" ≠ ParseOutcome.query ""
    ∧ parseResponse "<@query@>" = ParseOutcome.malformed := by
  decide

/-- C3 amended: the parser implements the transition rule with a nonempty-
capture proviso. If `<@query@>` occurs with nonempty trailing text, that
text trimmed is the query (QUERY_FOUND); when the query capture is empty
or absent and `<@explanation@>` occurs with nonempty trailing text, the
trimmed text is the explanation; when both captures are empty or absent
the outcome is MALFORMED. The three concrete examples of the claim hold as
stated. -/
theorem c3_parser_amended (text : String) :
    (∀ cap, matchCapture "<@query@>" text = some cap → jsTruthy cap = true →
      parseResponse text = ParseOutcome.query (jsTrim cap))
    ∧ (((matchCapture "<@query@>" text).map jsTruthy).getD false = false →
      ∀ cap, matchCapture "<@explanation@>" text = some cap → jsTruthy cap = true →
        parseResponse text = ParseOutcome.explanation (jsTrim cap))
    ∧ (((matchCapture "<@query@>" text).map jsTruthy).getD false = false →
      ((matchCapture "<@explanation@>" text).map jsTruthy).getD false = false →
        parseResponse text = ParseOutcome.malformed)
    ∧ parseResponse "<@query@>SELECT 1" = ParseOutcome.query "SELECT 1"
    ∧ parseResponse "<@explanation@>missing table" = ParseOutcome.explanation "missing table"
    ∧ parseResponse "no markers here" = ParseOutcome.malformed := by
  refine ⟨?_, ?_, ?_, by decide, by decide, by decide⟩
  · intro cap hcap htr
    simp [parseResponse, hcap, htr]
  · intro hq cap hcap htr
    simp [parseResponse, hq, hcap, htr]
  · intro hq he
    simp [parseResponse, hq, he]

/-- C3 witness: the amended rule applied to the concrete text
`<@query@>SELECT 1`. -/
theorem c3_parser_amended_witness :
    parseResponse "<@query@>SELECT 1" = ParseOutcome.query (jsTrim "SELECT 1") :=
  (c3_parser_amended "<@query@>SELECT 1").1 "SELECT 1" (by decide) (by decide)

/-- C4 counterexample: a concrete invocation of `generateSqlFromQuestion`
whose external-call trace contains the table-index query with `topK = 5`
but no query to the query-intent collection at all (in particular none with
`topK = 3`), refuting the claim that every invocation queries both vector
collections. -/
theorem c4_counterexample :
    ExtCall.indexQuery IndexId.queryIntentsIndex 3
      ∉ (generateSqlFromQuestion ⟨[], "", "no markers here", fun _ => none⟩
          "Show me all leads created in the last 30 days").2
    ∧ ((generateSqlFromQuestion ⟨[], "", "no markers here", fun _ => none⟩
          "Show me all leads created in the last 30 days").2.filter
        (fun c => match c with | ExtCall.indexQuery _ _ => true | _ => false))
      = [ExtCall.indexQuery IndexId.tableIndex 5] := by
  decide

/-- C4 amended: for every question, the pipeline embeds the question and
then queries only the table index, requesting up to 5 matches, before the
Re-rank LLM call; the query-intent index is never queried. The full trace
is the embedding call, the one `topK = 5` table-index query, the two LLM
calls (re-rank, generation), and then at most one dry-run database call. -/
theorem c4_retrieval_amended (env : GenEnv) (question : String) :
    ∃ rest, (generateSqlFromQuestion env question).2
      = ExtCall.embedQuery question :: ExtCall.indexQuery IndexId.tableIndex 5
        :: ExtCall.llmInvoke :: ExtCall.llmInvoke :: rest
    ∧ (rest = [] ∨ ∃ sql, rest = [ExtCall.explainQuery sql]) := by
  cases hp : parseResponse env.finalResponse with
  | query s =>
    refine ⟨(validateSqlSyntax env.dryRun s).2, ?_, ?_⟩
    · simp only [generateSqlFromQuestion, hp]
      cases hv : (validateSqlSyntax env.dryRun s).1.isValid <;> simp [hv]
    · cases validateSqlSyntax_trace env.dryRun s with
      | inl h => exact Or.inl h
      | inr h => exact Or.inr ⟨s, h⟩
  | explanation s =>
    exact ⟨[], by simp [generateSqlFromQuestion, hp], Or.inl rfl⟩
  | malformed =>
    exact ⟨[], by simp [generateSqlFromQuestion, hp], Or.inl rfl⟩

/-- C5 counterexample: a curated entry that supplies the tier `""` (the
curated map may carry any JSON string). The merge does put the curated
value on the record, but the upsert's `table.tier || 'IRON'` treats the
empty string as falsy, so the stored tier is `IRON`, not the supplied
curated value — refuting "tier defaults to IRON only when the curated
source supplies no tier" and "curated fields always override". -/
theorem c5_counterexample :
    (enrich (fun n => if n = "events" then some ⟨some "", none⟩ else none)
        ⟨"events", "id integer", "Event log."⟩).tier = some ""
    ∧ (pineconeRecordFor
        (enrich (fun n => if n = "events" then some ⟨some "", none⟩ else none)
          ⟨"events", "id integer", "Event log."⟩) []).metadata.tier = "IRON"
    ∧ ("IRON" : String) ≠ "" := by
  decide

/-- C5 amended: a curated tier overrides the introspected default whenever
it is a nonempty string; the stored tier is `IRON` exactly when the merge
left no tier or an empty-string tier (JS falsiness). In particular the
claim's examples hold: curated `tier = GOLD` is stored as `GOLD`, and a
table absent from the curated map carries no tier after the merge and is
stored with tier `IRON`. -/
theorem c5_metadata_precedence_amended (tableMetadata : String → Option CuratedMeta)
    (table : SummarizedTable) (vector : List Int) :
    (∀ g, (enrich tableMetadata table).tier = some g → g ≠ "" →
      (pineconeRecordFor (enrich tableMetadata table) vector).metadata.tier = g)
    ∧ ((enrich tableMetadata table).tier = none →
      (pineconeRecordFor (enrich tableMetadata table) vector).metadata.tier = "IRON")
    ∧ ((enrich tableMetadata table).tier = some "" →
      (pineconeRecordFor (enrich tableMetadata table) vector).metadata.tier = "IRON")
    ∧ (tableMetadata table.name = none →
      (enrich tableMetadata table).tier = none ∧ (enrich tableMetadata table).domain = none)
    ∧ (∀ m, tableMetadata table.name = some m →
      (enrich tableMetadata table).tier = m.tier
      ∧ (enrich tableMetadata table).domain = m.domain) := by
  refine ⟨?_, ?_, ?_, ?_, ?_⟩
  · intro g hg hne
    simp [pineconeRecordFor, jsOrString, hg, hne]
  · intro hg
    simp [pineconeRecordFor, jsOrString, hg]
  · intro hg
    simp [pineconeRecordFor, jsOrString, hg]
  · intro habs
    simp [enrich, habs]
  · intro m hm
    simp [enrich, hm]

/-- C5 witness: the amended precedence at concrete inputs — a curated
override `tier = GOLD` is stored as `GOLD`, and a table absent from the
curated map is stored with tier `IRON`. -/
theorem c5_metadata_precedence_amended_witness :
    (pineconeRecordFor
        (enrich (fun n => if n = "leads" then some ⟨some "GOLD", none⟩ else none)
          ⟨"leads", "id integer", "Sales leads."⟩) []).metadata.tier = "GOLD"
    ∧ (pineconeRecordFor
        (enrich (fun _ => none) ⟨"leads", "id integer", "Sales leads."⟩) []).metadata.tier
      = "IRON" :=
  ⟨(c5_metadata_precedence_amended (fun n => if n = "leads" then some ⟨some "GOLD", none⟩ else none)
      ⟨"leads", "id integer", "Sales leads."⟩ []).1 "GOLD" (by decide) (by decide),
   (c5_metadata_precedence_amended (fun _ => none)
      ⟨"leads", "id integer", "Sales leads."⟩ []).2.1 (by decide)⟩

/-- C6 counterexample: a table with curated `tier = GOLD` and no curated
domain. The claim says the stored domain mirrors the tier (`GOLD`); the
code's `domain: table.domain || 'IRON'` stores the constant `IRON`. -/
theorem c6_counterexample :
    (pineconeRecordFor
        (enrich (fun n => if n = "leads" then some ⟨some "GOLD", none⟩ else none)
          ⟨"leads", "id integer", "Sales leads."⟩) []).metadata.tier = "GOLD"
    ∧ (pineconeRecordFor
        (enrich (fun n => if n = "leads" then some ⟨some "GOLD", none⟩ else none)
          ⟨"leads", "id integer", "Sales leads."⟩) []).metadata.domain = "IRON"
    ∧ ("IRON" : String) ≠ "GOLD" := by
  decide

/-- C6 amended: when the domain field is unset (or empty) after the
curated-metadata merge, the stored domain is the constant `IRON`,
whatever the record's tier is; it equals the stored tier only when the
tier also fell back to its own `IRON` default. -/
theorem c6_domain_default_amended (tableMetadata : String → Option CuratedMeta)
    (table : SummarizedTable) (vector : List Int) :
    ((enrich tableMetadata table).domain = none →
      (pineconeRecordFor (enrich tableMetadata table) vector).metadata.domain = "IRON")
    ∧ ((enrich tableMetadata table).domain = some "" →
      (pineconeRecordFor (enrich tableMetadata table) vector).metadata.domain = "IRON") := by
  constructor
  · intro hd
    simp [pineconeRecordFor, jsOrString, hd]
  · intro hd
    simp [pineconeRecordFor, jsOrString, hd]

/-- C6 witness: the GOLD-tier table with no curated domain is stored with
domain `IRON`. -/
theorem c6_domain_default_amended_witness :
    (pineconeRecordFor
        (enrich (fun n => if n = "revenue" then some ⟨some "GOLD", none⟩ else none)
          ⟨"revenue", "amount numeric", "Revenue."⟩) []).metadata.domain = "IRON" :=
  (c6_domain_default_amended (fun n => if n = "revenue" then some ⟨some "GOLD", none⟩ else none)
    ⟨"revenue", "amount numeric", "Revenue."⟩ []).1 (by decide)

/-- C8 counterexample: sanitization is not idempotent. On the query
`AND a = 'p WHERE\nb = 7 q'` the first pass leaves the quoted-literal
rules unmatched (the regex dot cannot cross the newline inside the quotes)
but the numeric `WHERE` rule matches across the newline (`\s+` does match
it) and removes it; on the second pass the quoted `AND` rule then matches
the whole line, so sanitizing the sanitized query changes it again. -/
theorem c8_counterexample :
    sanitizeQueries ["AND a = 'p WHERE\nb = 7 q'"]
      = ["AND a = 'p WHERE column = 123 q'"]
    ∧ sanitizeQueries (sanitizeQueries ["AND a = 'p WHERE\nb = 7 q'"])
      = ["AND column = 'value'"]
    ∧ sanitizeQueries (sanitizeQueries ["AND a = 'p WHERE\nb = 7 q'"])
      ≠ sanitizeQueries ["AND a = 'p WHERE\nb = 7 q'"] := by
  refine ⟨by decide, by decide, by decide⟩

/-- C8 amended: the four sanitized placeholder forms are fixed points of
the sanitizer — applying `sanitizeQueries` to them yields the same texts —
but sanitization is not idempotent on every query string (the newline
counterexample above). -/
theorem c8_fixed_points_amended :
    sanitizeQueries
        ["WHERE column = 'value'", "AND column = 'value'",
         "WHERE column = 123", "AND column = 123"]
      = ["WHERE column = 'value'", "AND column = 'value'",
         "WHERE column = 123", "AND column = 123"]
    ∧ sanitizeOne (sanitizeOne "WHERE column = 'value'") = sanitizeOne "WHERE column = 'value'"
    ∧ sanitizeOne (sanitizeOne "AND column = 'value'") = sanitizeOne "AND column = 'value'"
    ∧ sanitizeOne (sanitizeOne "WHERE column = 123") = sanitizeOne "WHERE column = 123"
    ∧ sanitizeOne (sanitizeOne "AND column = 123") = sanitizeOne "AND column = 123" := by
  decide

/-- C9: both background jobs contain failures at their outer boundary. For
every environment — so for every error any inner stage can throw — the job
functions return normally (`Except.ok`, never a propagated error), the
logged error is exactly the one the try block threw, the upserts the try
block completed are left in place in the returned run record (no
rollback), and each sequential upsert loop keeps exactly the records of
the maximal successful prefix of its input. -/
theorem c9_job_failure_containment (envS : SchemaSyncEnv) (envQ : QueryLogSyncEnv) :
    runSchemaSync envS
      = Except.ok ⟨(runSchemaSyncTry envS).1, caughtError (runSchemaSyncTry envS).2⟩
    ∧ runQueryLogSync envQ
      = Except.ok ⟨(runQueryLogSyncTry envQ).1, caughtError (runQueryLogSyncTry envQ).2⟩
    ∧ (∀ tables : List EnrichedTable,
      (upsertToPinecone envS tables).1
        = (tables.takeWhile (fun t => (upsertStep envS t).isOk)).filterMap
            (fun t => (upsertStep envS t).toOption))
    ∧ (∀ intents : List QueryIntent,
      (embedAndStoreQueries envQ intents).1
        = (intents.takeWhile (fun i => (storeStep envQ i).isOk)).filterMap
            (fun i => (storeStep envQ i).toOption)) := by
  refine ⟨?_, ?_, ?_, ?_⟩
  · rcases h : runSchemaSyncTry envS with ⟨records, out⟩
    cases out <;> simp [runSchemaSync, h, caughtError]
  · rcases h : runQueryLogSyncTry envQ with ⟨records, out⟩
    cases out <;> simp [runQueryLogSync, h, caughtError]
  · intro tables
    induction tables with
    | nil => rfl
    | cons t rest ih =>
      cases hs : upsertStep envS t with
      | error e =>
        simp [upsertToPinecone, hs, List.takeWhile_cons, Except.isOk, Except.toBool]
      | ok r =>
        simp [upsertToPinecone, hs, List.takeWhile_cons, Except.isOk, Except.toBool, Except.toOption,
          List.filterMap_cons, ih]
  · intro intents
    induction intents with
    | nil => rfl
    | cons i rest ih =>
      cases hs : storeStep envQ i with
      | error e =>
        simp [embedAndStoreQueries, hs, List.takeWhile_cons, Except.isOk, Except.toBool]
      | ok r =>
        simp [embedAndStoreQueries, hs, List.takeWhile_cons, Except.isOk, Except.toBool, Except.toOption,
          List.filterMap_cons, ih]
